import Mathlib

/-!
Verification of the authentication glue layer of the mazunte-connect app:
the client-side session provider (`AuthProvider` / `useSupabaseClient`),
the session state mirror (`useSessionContext`), and the server-side cookie
bridges (edge middleware and tRPC request context), as shallowly embedded
pure functions and state machines.
-/

namespace MazunteAuth

/-- A session is an opaque record owned by the vendor SDK; this layer only
stores a reference, never inspecting its fields. We give it one field so
distinct sessions exist. -/
structure Session where
  accessToken : String
  deriving DecidableEq, Repr

/-- The authentication client, as constructed from the two environment
values (service endpoint URL and public API key). -/
structure SupabaseClient where
  url : String
  anonKey : String
  deriving DecidableEq, Repr

/-- The ambient context value published by `AuthProvider`
(`type SupabaseContext = { supabase: SupabaseClient<Database> }`). -/
structure SupabaseContext where
  supabase : SupabaseClient
  deriving DecidableEq, Repr

/-- `useSupabaseClient` from `AuthProvider.tsx`: reads the ambient context
(`undefined`, i.e. `none`, outside the provider subtree), throws
`useSupabaseClient must be used within AuthProvider` when the context is
undefined, and returns `context.supabase` otherwise. -/
def useSupabaseClient (ctx : Option SupabaseContext) : Except String SupabaseClient :=
  match ctx with
  | none => Except.error "useSupabaseClient must be used within AuthProvider"
  | some c => Except.ok c.supabase

/-- The environment values read by `AuthProvider`
(`process.env.NEXT_PUBLIC_SUPABASE_URL`, `process.env.NEXT_PUBLIC_SUPABASE_ANON_KEY`);
each may be absent. -/
structure Env where
  supabaseUrl : Option String
  supabaseAnonKey : Option String
  deriving DecidableEq, Repr

/-- Modelled from the spec: `createBrowserClient` lives in the vendor SDK
(`@supabase/ssr`), not in this repository; per the spec, absence of either
required environment value causes a failure at construction time rather
than being silently accepted. -/
def createBrowserClient (url anonKey : Option String) : Except String SupabaseClient :=
  match url, anonKey with
  | some u, some k => Except.ok (SupabaseClient.mk u k)
  | _, _ => Except.error "missing required environment value"

/-- The client construction performed by `AuthProvider`'s lazy `useState`
initializer: `createBrowserClient(process.env.NEXT_PUBLIC_SUPABASE_URL!,
process.env.NEXT_PUBLIC_SUPABASE_ANON_KEY!)`. -/
def authProviderConstructClient (env : Env) : Except String SupabaseClient :=
  createBrowserClient env.supabaseUrl env.supabaseAnonKey

/-- The `useState` cell of `AuthProvider` across re-renders, together with
a count of how many times the initializer (client construction) has run. -/
structure ProviderRenderState where
  stored : Option SupabaseClient
  constructions : Nat
  deriving DecidableEq, Repr

/-- One render of `AuthProvider`: React's `useState(() => createBrowserClient(...))`
runs the lazy initializer only when no state is stored yet (first render);
on re-renders the stored client is returned unchanged. -/
def renderAuthProvider (url anonKey : String) (st : ProviderRenderState) :
    SupabaseClient × ProviderRenderState :=
  match st.stored with
  | some c => (c, st)
  | none =>
      let c := SupabaseClient.mk url anonKey
      (c, ProviderRenderState.mk (some c) (st.constructions + 1))

/-- The `useState` cell after `n` renders of one provider lifetime,
starting from the empty cell of a fresh mount. -/
def renderLoop (url anonKey : String) : Nat → ProviderRenderState
  | 0 => ProviderRenderState.mk none 0
  | n + 1 => (renderAuthProvider url anonKey (renderLoop url anonKey n)).2

/-- A server-client construction call that also counts how many times
construction has happened (`createServerClient` from `@supabase/ssr`). -/
def createServerClientCounted (url anonKey : String) (k : Nat) : SupabaseClient × Nat :=
  (SupabaseClient.mk url anonKey, k + 1)

/-- The middleware path constructs its server client once per inbound
request (`const supabase = createServerClient<Database>(...)` in
`apps/next/middleware.ts`). -/
def middlewareCreateClient (url anonKey : String) : SupabaseClient × Nat :=
  createServerClientCounted url anonKey 0

/-- The tRPC context-construction path constructs its server client once
per inbound request (`let supabase = createServerClient<Database>(...)` in
`packages/api/src/trpc.ts`). -/
def trpcCreateClient (url anonKey : String) : SupabaseClient × Nat :=
  createServerClientCounted url anonKey 0

/-! ## Session state mirror (`useSessionContext`) -/

/-- The local reactive state of `useSessionContext`: the two `useState`
cells (`session`, `isLoading`) plus whether the `onAuthStateChange`
subscription installed by the effect is still active (it is released by the
cleanup `subscription.unsubscribe()`). -/
structure MirrorState where
  session : Option Session
  isLoading : Bool
  subscribed : Bool
  deriving DecidableEq, Repr

/-- The state at activation of the hook: `useState<Session | null>(null)`,
`useState(true)`, and the effect has installed the subscription. -/
def initMirror : MirrorState :=
  MirrorState.mk none true true

/-- The events the mirror reacts to: resolution of the initial
`supabase.auth.getSession()` fetch (payload `s`), an `onAuthStateChange`
event (payload `s`), and teardown of the consuming scope (the effect
cleanup, which unsubscribes). -/
inductive MirrorEvent where
  | resolve (s : Option Session)
  | change (s : Option Session)
  | teardown
  deriving DecidableEq, Repr

/-- One transition of the mirror, from `useSessionContext`:
`getSession().then` runs `setSession(session); setIsLoading(false)`;
the `onAuthStateChange` handler runs `setSession(session)` and only fires
while the subscription is active; the cleanup unsubscribes. -/
def step (e : MirrorEvent) (st : MirrorState) : MirrorState :=
  match e with
  | MirrorEvent.resolve s => MirrorState.mk s false st.subscribed
  | MirrorEvent.change s =>
      if st.subscribed then MirrorState.mk s st.isLoading st.subscribed else st
  | MirrorEvent.teardown => MirrorState.mk st.session st.isLoading false

/-- Run a sequence of mirror events from a state. -/
def runEvents (st : MirrorState) : List MirrorEvent → MirrorState
  | [] => st
  | e :: es => runEvents (step e st) es

/-- Whether an event is the resolution of the initial session fetch. -/
def isResolve : MirrorEvent → Bool
  | MirrorEvent.resolve _ => true
  | _ => false

/-- Number of `true → false` transitions of `isLoading` along a run. -/
def flipsDown (st : MirrorState) : List MirrorEvent → Nat
  | [] => 0
  | e :: es =>
      (if st.isLoading && !(step e st).isLoading then 1 else 0) + flipsDown (step e st) es

/-- Number of `false → true` transitions of `isLoading` along a run. -/
def flipsUp (st : MirrorState) : List MirrorEvent → Nat
  | [] => 0
  | e :: es =>
      (if !st.isLoading && (step e st).isLoading then 1 else 0) + flipsUp (step e st) es

/-- The record returned by `useSessionContext`:
`{ session, isLoading, supabaseClient: supabase }`. -/
structure SessionContextValue where
  session : Option Session
  isLoading : Bool
  supabaseClient : SupabaseClient
  deriving DecidableEq, Repr

/-- `useSessionContext` as a function of the ambient context and the
current mirror state: it first calls `useSupabaseClient()` (which throws
outside the provider subtree) and then returns the mirrored state together
with that client. -/
def useSessionContext (ctx : Option SupabaseContext) (st : MirrorState) :
    Except String SessionContextValue :=
  match useSupabaseClient ctx with
  | Except.error e => Except.error e
  | Except.ok client => Except.ok (SessionContextValue.mk st.session st.isLoading client)

/-- The effect's reaction to the outcome of the single initial
`getSession()` call: the code chains `.then` with no rejection handler, so
a failure propagates unchanged; on success it runs
`setSession(session); setIsLoading(false)`. -/
def applyGetSessionResult (r : Except String (Option Session)) (st : MirrorState) :
    Except String MirrorState :=
  match r with
  | Except.error e => Except.error e
  | Except.ok s => Except.ok (step (MirrorEvent.resolve s) st)

/-! ## Server-side cookie bridge -/

/-- The attributes a written cookie may carry (path, domain, expiry,
same-site policy). -/
structure CookieOptions where
  path : Option String
  domain : Option String
  maxAge : Option Nat
  sameSite : Option String
  deriving DecidableEq, Repr

/-- A cookie as read from an incoming request: name and value. -/
structure Cookie where
  name : String
  value : String
  deriving DecidableEq, Repr

/-- A `{name, value, options}` triple as passed to `setAll` and written to
the outgoing response. -/
structure CookieToSet where
  name : String
  value : String
  options : CookieOptions
  deriving DecidableEq, Repr

/-- `req.cookies.set(name, value)`: the framework cookie jar is keyed by
name, so setting updates the entry with that name or inserts a new one. -/
def setReqCookie : List Cookie → String → String → List Cookie
  | [], n, v => [Cookie.mk n v]
  | x :: xs, n, v =>
      if x.name = n then Cookie.mk n v :: xs else x :: setReqCookie xs n v

/-- Read one cookie by name from a request jar. -/
def getReqCookie : List Cookie → String → Option String
  | [], _ => none
  | x :: xs, n => if x.name = n then some x.value else getReqCookie xs n

/-- `res.cookies.set(name, value, options)` / `cookiesStore.set(name, value, options)`:
update-or-insert keyed by cookie name, keeping the full triple. -/
def setCookieEntry : List CookieToSet → CookieToSet → List CookieToSet
  | [], c => [c]
  | x :: xs, c => if x.name = c.name then c :: xs else x :: setCookieEntry xs c

/-- The state of the middleware bridge: the (forwarded) request cookie jar
and the cookies set on the current outgoing response. -/
structure MwState where
  req : List Cookie
  res : List CookieToSet
  deriving DecidableEq, Repr

/-- Middleware `getAll()`: `return req.cookies.getAll()`. -/
def mwGetAll (st : MwState) : List Cookie :=
  st.req

/-- Middleware `setAll(cookiesToSet)`: each `{name, value}` is set on the
request jar, then `res = NextResponse.next({request: {headers: req.headers}})`
creates a fresh outgoing response carrying the updated request, and each
`{name, value, options}` is set on that response. -/
def mwSetAll (lst : List CookieToSet) (st : MwState) : MwState :=
  MwState.mk
    (lst.foldl (fun j c => setReqCookie j c.name c.value) st.req)
    (lst.foldl setCookieEntry [])

/-- tRPC-context `getAll()`: `return cookiesStore.getAll()`, which exposes
the name/value of each entry of the store. -/
def trpcGetAll (store : List CookieToSet) : List Cookie :=
  store.map (fun c => Cookie.mk c.name c.value)

/-- tRPC-context `setAll(cookiesToSet)`: each `{name, value, options}` is
set on the cookie store. -/
def trpcSetAll (lst : List CookieToSet) (store : List CookieToSet) : List CookieToSet :=
  lst.foldl setCookieEntry store

/-- An operation against the cookie bridge interface handed to
`createServerClient`. -/
inductive CookieOp where
  | getAll
  | setAll (lst : List CookieToSet)
  deriving DecidableEq, Repr

/-- Run a sequence of cookie operations through the middleware bridge,
collecting the value returned by each `getAll` and the sequence of
`{name, value, options}` triples written to the response. -/
def mwRun : List CookieOp → MwState → List (List Cookie) × List CookieToSet
  | [], _ => ([], [])
  | CookieOp.getAll :: ops, st =>
      (mwGetAll st :: (mwRun ops st).1, (mwRun ops st).2)
  | CookieOp.setAll lst :: ops, st =>
      ((mwRun ops (mwSetAll lst st)).1, lst ++ (mwRun ops (mwSetAll lst st)).2)

/-- Run a sequence of cookie operations through the tRPC bridge,
collecting the value returned by each `getAll` and the sequence of
`{name, value, options}` triples written to the cookie store. -/
def trpcRun : List CookieOp → List CookieToSet → List (List Cookie) × List CookieToSet
  | [], _ => ([], [])
  | CookieOp.getAll :: ops, store =>
      (trpcGetAll store :: (trpcRun ops store).1, (trpcRun ops store).2)
  | CookieOp.setAll lst :: ops, store =>
      ((trpcRun ops (trpcSetAll lst store)).1, lst ++ (trpcRun ops (trpcSetAll lst store)).2)

/-- The tRPC request context: it holds the per-request server client. -/
structure TrpcContext where
  supabase : SupabaseClient
  deriving DecidableEq, Repr

/-- Construction of the tRPC request context from the outcome of the
server-client construction: no try/catch surrounds it, so a construction
failure propagates unchanged to the caller. -/
def createTrpcContext (construct : Except String SupabaseClient) : Except String TrpcContext :=
  match construct with
  | Except.error e => Except.error e
  | Except.ok c => Except.ok (TrpcContext.mk c)

/-- Relaying a `setAll` list through a fallible underlying cookie write:
the code is a plain `forEach` with no catch, so the first failure
propagates unchanged and no write is retried. -/
def relaySetAll (write : CookieToSet → Except String Unit) : List CookieToSet → Except String Unit
  | [] => Except.ok ()
  | c :: cs =>
      match write c with
      | Except.error e => Except.error e
      | Except.ok _ => relaySetAll write cs

/-! ## Helper lemmas -/

/-- After the first render of a provider lifetime, the `useState` cell is
stable: it stores the one constructed client and a construction count of 1. -/
lemma renderLoop_succ_eq (url anonKey : String) (m : Nat) :
    renderLoop url anonKey (m + 1)
      = ProviderRenderState.mk (some (SupabaseClient.mk url anonKey)) 1 := by
  induction m with
  | zero => rfl
  | succ k ih =>
      show (renderAuthProvider url anonKey (renderLoop url anonKey (k + 1))).2
        = ProviderRenderState.mk (some (SupabaseClient.mk url anonKey)) 1
      rw [ih]
      rfl

/-- A change event never modifies `isLoading`, whether or not the
subscription is still active. -/
lemma step_change_isLoading (s : Option Session) (st : MirrorState) :
    (step (MirrorEvent.change s) st).isLoading = st.isLoading := by
  simp only [step]
  split <;> rfl

/-- No event sets `isLoading` back to true once it is false. -/
lemma step_isLoading_of_false (e : MirrorEvent) (st : MirrorState)
    (h : st.isLoading = false) : (step e st).isLoading = false := by
  cases e with
  | resolve s => rfl
  | change s => rw [step_change_isLoading]; exact h
  | teardown => exact h

/-- `isLoading` never transitions from false to true along any run. -/
lemma flipsUp_eq_zero (evs : List MirrorEvent) : ∀ st : MirrorState, flipsUp st evs = 0 := by
  induction evs with
  | nil => intro st; rfl
  | cons e es ih =>
      intro st
      have hz : (if !st.isLoading && (step e st).isLoading then 1 else 0) = 0 := by
        cases hl : st.isLoading with
        | true => simp [hl]
        | false => simp [hl, step_isLoading_of_false e st hl]
      simp only [flipsUp, hz, ih (step e st), Nat.zero_add]

/-- Once `isLoading` is false, no further `true → false` flips occur. -/
lemma flipsDown_of_false (evs : List MirrorEvent) : ∀ st : MirrorState,
    st.isLoading = false → flipsDown st evs = 0 := by
  induction evs with
  | nil => intro st _; rfl
  | cons e es ih =>
      intro st h
      have h2 := step_isLoading_of_false e st h
      simp [flipsDown, h, ih (step e st) h2]

/-- From a loading state, the number of `true → false` flips of `isLoading`
is one exactly when the run contains a fetch resolution, zero otherwise. -/
lemma flipsDown_of_true (evs : List MirrorEvent) : ∀ st : MirrorState,
    st.isLoading = true →
    flipsDown st evs = if evs.any isResolve then 1 else 0 := by
  induction evs with
  | nil => intro st _; rfl
  | cons e es ih =>
      intro st h
      cases e with
      | resolve s =>
          have hf : (step (MirrorEvent.resolve s) st).isLoading = false := rfl
          simp [flipsDown, h, hf, isResolve, flipsDown_of_false es _ hf, List.any_cons]
      | change s =>
          have hst : (step (MirrorEvent.change s) st).isLoading = true := by
            rw [step_change_isLoading]; exact h
          simp [flipsDown, h, hst, isResolve, ih _ hst, List.any_cons]
      | teardown =>
          have hst : (step MirrorEvent.teardown st).isLoading = true := h
          simp [flipsDown, h, hst, isResolve, ih _ hst, List.any_cons]

/-- No event re-installs the subscription once it has been released. -/
lemma step_subscribed_of_false (e : MirrorEvent) (st : MirrorState)
    (h : st.subscribed = false) : (step e st).subscribed = false := by
  cases e with
  | resolve s => exact h
  | change s => simp [step, h]
  | teardown => rfl

/-- A run from an unsubscribed state stays unsubscribed. -/
lemma runEvents_subscribed_of_false (evs : List MirrorEvent) : ∀ st : MirrorState,
    st.subscribed = false → (runEvents st evs).subscribed = false := by
  induction evs with
  | nil => intro st h; exact h
  | cons e es ih => intro st h; exact ih (step e st) (step_subscribed_of_false e st h)

/-- Runs compose over list append. -/
lemma runEvents_append (a b : List MirrorEvent) : ∀ st : MirrorState,
    runEvents st (a ++ b) = runEvents (runEvents st a) b := by
  induction a with
  | nil => intro st; rfl
  | cons e es ih => intro st; exact ih (step e st)

/-- Setting then reading the same name in a request jar yields the written
value. -/
lemma getReqCookie_setReqCookie (jar : List Cookie) (n v : String) :
    getReqCookie (setReqCookie jar n v) n = some v := by
  induction jar with
  | nil => simp [setReqCookie, getReqCookie]
  | cons x xs ih =>
      by_cases h : x.name = n
      · simp [setReqCookie, getReqCookie, h]
      · simp [setReqCookie, getReqCookie, h, ih]

/-- Projecting a full cookie store to name/value pairs commutes with a
single keyed set. -/
lemma map_setCookieEntry (store : List CookieToSet) (c : CookieToSet) :
    (setCookieEntry store c).map (fun x => Cookie.mk x.name x.value)
      = setReqCookie (store.map (fun x => Cookie.mk x.name x.value)) c.name c.value := by
  induction store with
  | nil => rfl
  | cons x xs ih =>
      by_cases h : x.name = c.name
      · simp [setCookieEntry, setReqCookie, h]
      · simp [setCookieEntry, setReqCookie, h, ih]

/-- Projecting a full cookie store to name/value pairs commutes with a
whole `setAll` batch. -/
lemma map_foldl_setCookieEntry (lst : List CookieToSet) : ∀ store : List CookieToSet,
    (lst.foldl setCookieEntry store).map (fun x => Cookie.mk x.name x.value)
      = lst.foldl (fun j c => setReqCookie j c.name c.value)
          (store.map (fun x => Cookie.mk x.name x.value)) := by
  induction lst with
  | nil => intro store; rfl
  | cons c cs ih =>
      intro store
      simp only [List.foldl_cons]
      rw [ih (setCookieEntry store c), map_setCookieEntry]

/-! ## Claim theorems -/

/-- Claim C1: `useSupabaseClient` throws the error
`useSupabaseClient must be used within AuthProvider` if and only if the
ambient context value is undefined (invocation outside an active
`AuthProvider` subtree); inside the subtree it returns the provider's
client without throwing. -/
theorem useSupabaseClient_guard :
    (∀ ctx : Option SupabaseContext,
        useSupabaseClient ctx
            = Except.error "useSupabaseClient must be used within AuthProvider"
          ↔ ctx = none)
    ∧ ∀ c : SupabaseContext, useSupabaseClient (some c) = Except.ok c.supabase := by
  constructor
  · intro ctx
    cases ctx <;> simp [useSupabaseClient]
  · intro c
    rfl

/-- Claim C2: exactly one authentication client is constructed per
provider lifetime on the client (the lazy `useState` initializer runs once
and re-renders never construct a second client: the stored client stays
the one from the first render) and exactly one per request on the server
(both the middleware and the tRPC construction sites). -/
theorem one_client_per_scope (url anonKey : String) :
    (∀ n : Nat, 1 ≤ n →
        (renderLoop url anonKey n).constructions = 1
        ∧ (renderLoop url anonKey n).stored = some (SupabaseClient.mk url anonKey))
    ∧ (middlewareCreateClient url anonKey).2 = 1
    ∧ (trpcCreateClient url anonKey).2 = 1 := by
  refine ⟨?_, rfl, rfl⟩
  intro n hn
  cases n with
  | zero => exact absurd hn (by decide)
  | succ m =>
      rw [renderLoop_succ_eq]
      exact ⟨rfl, rfl⟩

/-- Claim C2, witness: three renders of one provider lifetime construct
exactly one client. -/
theorem one_client_per_scope_witness :
    (renderLoop "url" "key" 3).constructions = 1 :=
  ((one_client_per_scope "url" "key").1 3 (by decide)).1

/-- Claim C3: `isLoading` starts true, flips from true to false exactly
once — precisely when the run contains the resolution of the initial
`getSession` fetch — never flips back to true, and change events never
modify `isLoading`. -/
theorem isLoading_transitions_once :
    initMirror.isLoading = true
    ∧ (∀ evs : List MirrorEvent,
        flipsDown initMirror evs = if evs.any isResolve then 1 else 0)
    ∧ (∀ (st : MirrorState) (evs : List MirrorEvent), flipsUp st evs = 0)
    ∧ ∀ (s : Option Session) (st : MirrorState),
        (step (MirrorEvent.change s) st).isLoading = st.isLoading := by
  refine ⟨rfl, ?_, ?_, ?_⟩
  · intro evs
    exact flipsDown_of_true evs initMirror rfl
  · intro st evs
    exact flipsUp_eq_zero evs st
  · intro s st
    exact step_change_isLoading s st

/-- Claim C4: after an auth-state change event received while the
subscription is active, the stored session equals exactly that event's
payload — last write wins, no merging with the prior session. -/
theorem change_event_last_write_wins (s : Option Session) (st : MirrorState)
    (h : st.subscribed = true) :
    (step (MirrorEvent.change s) st).session = s := by
  simp [step, h]

/-- Claim C4, witness: a change event carrying a concrete session replaces
the initial null session. -/
theorem change_event_last_write_wins_witness :
    (step (MirrorEvent.change (some (Session.mk "tok"))) initMirror).session
      = some (Session.mk "tok") :=
  change_event_last_write_wins (some (Session.mk "tok")) initMirror rfl

/-- Claim C5: the middleware bridge's `getAll()` returns the request
cookies unmodified (in particular both entries of `{a:1, b:2}`);
`setAll([{name:c, value:3, options:{path:/}}])` writes exactly that triple
onto the fresh outgoing response with full name/value/options fidelity,
and the forwarded request jar carries the updated cookie `c=3`. -/
theorem cookie_bridge_fidelity :
    (∀ st : MwState, mwGetAll st = st.req)
    ∧ mwGetAll (MwState.mk [Cookie.mk "a" "1", Cookie.mk "b" "2"] [])
        = [Cookie.mk "a" "1", Cookie.mk "b" "2"]
    ∧ (∀ (st : MwState) (c : CookieToSet),
        (mwSetAll [c] st).res = [c]
        ∧ getReqCookie (mwSetAll [c] st).req c.name = some c.value)
    ∧ (mwSetAll [CookieToSet.mk "c" "3" (CookieOptions.mk (some "/") none none none)]
          (MwState.mk [Cookie.mk "a" "1", Cookie.mk "b" "2"] [])).res
        = [CookieToSet.mk "c" "3" (CookieOptions.mk (some "/") none none none)] := by
  refine ⟨fun st => rfl, rfl, ?_, rfl⟩
  intro st c
  exact ⟨rfl, getReqCookie_setReqCookie st.req c.name c.value⟩

/-- Claim C6: the middleware and tRPC cookie bridges are behaviorally
identical: for every sequence of `getAll`/`setAll` operations, started
from a request jar and a cookie store exposing the same name/value pairs,
both produce the same sequence of cookie reads and the same sequence of
written `{name, value, options}` triples. -/
theorem cookie_bridges_equivalent (ops : List CookieOp) :
    ∀ (st : MwState) (store : List CookieToSet),
      store.map (fun x => Cookie.mk x.name x.value) = st.req →
      mwRun ops st = trpcRun ops store := by
  induction ops with
  | nil => intro st store _; rfl
  | cons op rest ih =>
      intro st store h
      cases op with
      | getAll =>
          simp only [mwRun, trpcRun]
          rw [ih st store h]
          simp [mwGetAll, trpcGetAll, h]
      | setAll lst =>
          have hinv : (trpcSetAll lst store).map (fun x => Cookie.mk x.name x.value)
              = (mwSetAll lst st).req := by
            simp only [trpcSetAll, mwSetAll]
            rw [map_foldl_setCookieEntry, h]
          simp only [mwRun, trpcRun]
          rw [ih (mwSetAll lst st) (trpcSetAll lst store) hinv]

/-- Claim C6, witness: a concrete read/write/read sequence produces
identical reads and written triples on both bridges. -/
theorem cookie_bridges_equivalent_witness :
    mwRun
        [CookieOp.getAll,
         CookieOp.setAll [CookieToSet.mk "c" "3" (CookieOptions.mk (some "/") none none none)],
         CookieOp.getAll]
        (MwState.mk [Cookie.mk "a" "1"] [])
      = trpcRun
          [CookieOp.getAll,
           CookieOp.setAll [CookieToSet.mk "c" "3" (CookieOptions.mk (some "/") none none none)],
           CookieOp.getAll]
          [CookieToSet.mk "a" "1" (CookieOptions.mk none none none none)] :=
  cookie_bridges_equivalent
    [CookieOp.getAll,
     CookieOp.setAll [CookieToSet.mk "c" "3" (CookieOptions.mk (some "/") none none none)],
     CookieOp.getAll]
    (MwState.mk [Cookie.mk "a" "1"] [])
    [CookieToSet.mk "a" "1" (CookieOptions.mk none none none none)]
    rfl

/-- Claim C7: client construction in `AuthProvider` fails at construction
time if and only if either required environment value (public service
endpoint URL or public API key) is absent. -/
theorem missing_env_fails_construction (env : Env) :
    (∃ e, authProviderConstructClient env = Except.error e)
      ↔ env.supabaseUrl = none ∨ env.supabaseAnonKey = none := by
  cases hu : env.supabaseUrl <;> cases hk : env.supabaseAnonKey <;>
    simp [authProviderConstructClient, createBrowserClient, hu, hk]

/-- Claim C7, witness: with the URL absent and the key present,
construction fails. -/
theorem missing_env_fails_construction_witness :
    ∃ e, authProviderConstructClient (Env.mk none (some "key")) = Except.error e :=
  (missing_env_fails_construction (Env.mk none (some "key"))).mpr (Or.inl rfl)

/-- Claim C8: once the effect cleanup (teardown) has run — after any
prefix of events, including any number of change events — a subsequent
change event leaves the torn-down mirror state completely unchanged, no
matter what other events arrived in between. -/
theorem no_writes_after_teardown (pre post : List MirrorEvent) (s : Option Session) :
    step (MirrorEvent.change s) (runEvents initMirror (pre ++ MirrorEvent.teardown :: post))
      = runEvents initMirror (pre ++ MirrorEvent.teardown :: post) := by
  have hsub : (runEvents initMirror (pre ++ MirrorEvent.teardown :: post)).subscribed
      = false := by
    rw [runEvents_append]
    exact runEvents_subscribed_of_false post
      (step MirrorEvent.teardown (runEvents initMirror pre)) rfl
  simp [step, hsub]

/-- Claim C9: a failure of the initial `getSession` fetch, of server-client
construction, or of an underlying cookie write is neither caught, wrapped
nor retried at this layer: the identical error value propagates to the
caller. -/
theorem sdk_errors_propagate_unchanged (e : String) (st : MirrorState)
    (w : CookieToSet → Except String Unit) (c : CookieToSet) (cs : List CookieToSet)
    (hw : w c = Except.error e) :
    applyGetSessionResult (Except.error e) st = Except.error e
    ∧ createTrpcContext (Except.error e) = Except.error e
    ∧ relaySetAll w (c :: cs) = Except.error e := by
  refine ⟨rfl, rfl, ?_⟩
  simp [relaySetAll, hw]

/-- Claim C9, witness: a concrete failure propagates unchanged through the
fetch handler, the context construction and the cookie-write relay. -/
theorem sdk_errors_propagate_unchanged_witness :
    applyGetSessionResult (Except.error "network down") initMirror
        = Except.error "network down"
    ∧ createTrpcContext (Except.error "network down") = Except.error "network down"
    ∧ relaySetAll (fun _ => Except.error "network down")
        [CookieToSet.mk "a" "1" (CookieOptions.mk none none none none)]
      = Except.error "network down" :=
  sdk_errors_propagate_unchanged "network down" initMirror
    (fun _ => Except.error "network down")
    (CookieToSet.mk "a" "1" (CookieOptions.mk none none none none)) [] rfl

/-- Claim C10: at activation, before the initial fetch resolves and before
any change event, `useSessionContext` inside the provider returns exactly
`session = null`, `isLoading = true`, and the very client published by the
enclosing provider's context. -/
theorem initial_mirror_values (ctx : SupabaseContext) :
    useSessionContext (some ctx) initMirror
      = Except.ok (SessionContextValue.mk none true ctx.supabase) :=
  rfl

end MazunteAuth
